import Mathlib

/-!
Shallow embedding of the `google` crate (src/lib.rs): a Google OAuth2
"authorization code" client.  The crate exposes a `Google` client with
three operations: `new` (construction with URL validation),
`get_redirect_url` (building the authorization URL) and `get_userinfo`
(exchanging an authorization code for an access token, fetching the
user-info endpoint and deserializing it into `UserInfo`).

Network effects are embedded as an explicit oracle (`World`) holding the
responses the two endpoints would give, and each networked operation also
returns the trace of requests it issued.  Randomness (the CSRF token) is
embedded as an explicit argument: `CsrfToken.new_random` maps the drawn
random bytes to the token string, mirroring the oauth2 crate.
-/

/-- JSON values, modelling `serde_json::Value` as far as the userinfo
endpoint contract needs (numbers collapsed to `Int`, which is enough to
represent a wrongly-typed field). -/
inductive Json where
  | null : Json
  | bool (b : Bool) : Json
  | num (n : Int) : Json
  | str (s : String) : Json
  | arr (elems : List Json) : Json
  | obj (fields : List (String × Json)) : Json

/-- The deserialized user profile, mirroring `UserInfo` in src/lib.rs:
`sub` is renamed to `open_id`, `name` to `username`, `picture` to
`profile_url`; `given_name`, `family_name` and `locale` are optional. -/
structure UserInfo where
  open_id : String
  username : String
  given_name : Option String
  family_name : Option String
  profile_url : String
  email : String
  email_verified : Bool
  locale : Option String
deriving DecidableEq, Repr

/-- serde: a `String` field deserializes only from a JSON string. -/
def getStr : Json → Option String
  | .str s => some s
  | _ => none

/-- serde: a `bool` field deserializes only from a JSON boolean. -/
def getBool : Json → Option Bool
  | .bool b => some b
  | _ => none

/-- serde: an `Option<String>` field deserializes from a JSON string or
`null` (a missing field is handled separately, in `UserInfo.fromJson?`). -/
def getOptStr : Json → Option (Option String)
  | .str s => some (some s)
  | .null => some none
  | _ => none

/-- Partial state of serde's derived `Deserialize` visitor for `UserInfo`:
which fields have been seen so far, and with what values. -/
structure UserInfoBuilder where
  sub : Option String := none
  name : Option String := none
  given_name : Option (Option String) := none
  family_name : Option (Option String) := none
  picture : Option String := none
  email : Option String := none
  email_verified : Option Bool := none
  locale : Option (Option String) := none
deriving DecidableEq, Repr

/-- One step of serde's derived map visitor for `UserInfo`: dispatch on the
field name (the serde-renamed wire names `sub`, `name`, `picture`),
fail on a duplicate known field or a value of the wrong type, and ignore
unknown fields (serde's default without `deny_unknown_fields`). -/
def stepField (b : UserInfoBuilder) (kv : String × Json) : Option UserInfoBuilder :=
  if kv.1 = "sub" then
    if b.sub.isSome then none else (getStr kv.2).map fun s => { b with sub := some s }
  else if kv.1 = "name" then
    if b.name.isSome then none else (getStr kv.2).map fun s => { b with name := some s }
  else if kv.1 = "given_name" then
    if b.given_name.isSome then none else (getOptStr kv.2).map fun s => { b with given_name := some s }
  else if kv.1 = "family_name" then
    if b.family_name.isSome then none else (getOptStr kv.2).map fun s => { b with family_name := some s }
  else if kv.1 = "picture" then
    if b.picture.isSome then none else (getStr kv.2).map fun s => { b with picture := some s }
  else if kv.1 = "email" then
    if b.email.isSome then none else (getStr kv.2).map fun s => { b with email := some s }
  else if kv.1 = "email_verified" then
    if b.email_verified.isSome then none else (getBool kv.2).map fun v => { b with email_verified := some v }
  else if kv.1 = "locale" then
    if b.locale.isSome then none else (getOptStr kv.2).map fun s => { b with locale := some s }
  else
    some b

/-- serde deserialization of `UserInfo` from a JSON value, as performed by
`response.json::<UserInfo>()`: the value must be an object; its fields are
visited in order; afterwards every required field must have been seen,
while a missing optional field defaults to `none`. -/
def UserInfo.fromJson? (j : Json) : Option UserInfo :=
  match j with
  | .obj fields => do
      let b ← fields.foldlM stepField {}
      let sub ← b.sub
      let name ← b.name
      let picture ← b.picture
      let email ← b.email
      let email_verified ← b.email_verified
      pure { open_id := sub, username := name,
             given_name := b.given_name.getD none,
             family_name := b.family_name.getD none,
             profile_url := picture, email := email,
             email_verified := email_verified,
             locale := b.locale.getD none }
  | _ => none

/-- Errors of the client, named after the spec's error taxonomy.  In the
source all errors are `Box<dyn Error>` values (or, at construction, a
panic); the constructors here record which failure site produced the
error, with the underlying cause kept where the source keeps it. -/
inductive OAuthError where
  | configurationError : OAuthError
  | tokenExchangeError (cause : String) : OAuthError
  | profileFetchError : OAuthError
  | profileParseError : OAuthError
deriving DecidableEq, Repr

/-- Outcome of the token-exchange round trip
(`exchange_code(..).request_async(..)`): either an access token, or a
failure (HTTP error status or transport failure), with its cause. -/
inductive TokenResult where
  | ok (accessToken : String) : TokenResult
  | err (cause : String) : TokenResult
deriving DecidableEq, Repr

/-- An HTTP response from the user-info endpoint: status code and JSON
body. -/
structure HttpResponse where
  status : Nat
  body : Json

/-- The network oracle: what the token endpoint and the profile endpoint
would answer during one call to `get_userinfo`. -/
structure World where
  tokenEndpoint : TokenResult
  profileEndpoint : HttpResponse

/-- A network request issued by the client, for tracing which endpoints a
call contacts and with what data: the POST to the token endpoint carries
the authorization code and the client's credentials and redirect URL; the
GET to the user-info endpoint carries its URL and the bearer token. -/
inductive Request where
  | tokenExchange (tokenUrl code clientId clientSecret redirectUri : String) : Request
  | profileFetch (url bearer : String) : Request
deriving DecidableEq, Repr

/-- `reqwest::StatusCode::is_success`: 2xx statuses. -/
def isSuccessStatus (s : Nat) : Bool := 200 ≤ s && s < 300

/-- The client, mirroring the `BasicClient` configuration held by
`Google`: client id, client secret, authorization endpoint URL, token
endpoint URL and redirect URL (all URL-valid by construction). -/
structure Google where
  clientId : String
  clientSecret : String
  authUrl : String
  tokenUrl : String
  redirectUrl : String
deriving DecidableEq, Repr

/-- The hardcoded authorization endpoint of src/lib.rs. -/
def googleAuthUrl : String := "https://accounts.google.com/o/oauth2/auth"

/-- The hardcoded token endpoint of src/lib.rs. -/
def googleTokenUrl : String := "https://accounts.google.com/o/oauth2/token"

/-- The hardcoded user-info endpoint of src/lib.rs. -/
def googleUserinfoUrl : String := "https://www.googleapis.com/oauth2/v3/userinfo"

/-- Splits a character list at its first colon, if any (used to find the
scheme of a URL string). -/
def splitAtColon : List Char → Option (List Char × List Char)
  | [] => none
  | c :: cs =>
      if c = ':' then some ([], cs)
      else (splitAtColon cs).map fun p => (c :: p.1, p.2)

/-- First character of a URL scheme: an ASCII letter. -/
def isSchemeStartChar (c : Char) : Bool := c.isAlpha

/-- Later characters of a URL scheme: ASCII alphanumerics, `+`, `-`, `.`. -/
def isSchemeChar (c : Char) : Bool :=
  c.isAlphanum || c = '+' || c = '-' || c = '.'

/-- The WHATWG special schemes whose URLs require an authority with a
non-empty host (`file`, whose host may be empty, is left with the
non-special schemes on purpose). -/
def isSpecialScheme (s : List Char) : Bool :=
  let l := s.map Char.toLower
  l = "http".data || l = "https".data || l = "ws".data || l = "wss".data || l = "ftp".data

/-- Code points the WHATWG parser rejects inside a host. -/
def isHostForbidden (c : Char) : Bool :=
  c = ' ' || c = '\t' || c = '\n' || c = '\r' || c = '#' || c = '/' ||
  c = '<' || c = '>' || c = '?' || c = '@' || c = '[' || c = '\\' ||
  c = ']' || c = '^' || c = '|'

/-- Skips the slashes (forward or back, as the WHATWG parser tolerates)
between the scheme of a special URL and its host. -/
def skipSlashes : List Char → List Char
  | '/' :: cs => skipSlashes cs
  | '\\' :: cs => skipSlashes cs
  | cs => cs

/-- The host portion: everything up to the first path, query, fragment or
port delimiter. -/
def takeHost (cs : List Char) : List Char :=
  cs.takeWhile fun c => !(c = '/' || c = '?' || c = '#' || c = ':')

/-- Model of `url::Url::parse` validity, as used by `AuthUrl::new`,
`TokenUrl::new` and `RedirectUrl::new`: the string must have a syntactically
valid scheme followed by a colon; for the special schemes (http, https, ws,
wss, ftp) a non-empty host free of forbidden code points must follow;
other schemes take an opaque path and are accepted.  A string with no
colon (e.g. `not a url`) is a relative URL and is rejected. -/
def isValidUrlString (s : String) : Bool :=
  match splitAtColon s.data with
  | none => false
  | some (scheme, rest) =>
      match scheme with
      | [] => false
      | c :: cs =>
          isSchemeStartChar c && cs.all isSchemeChar &&
          (if isSpecialScheme (c :: cs) then
            let host := takeHost (skipSlashes rest)
            !host.isEmpty && host.all fun ch => !isHostForbidden ch
          else true)

/-- Embedding of `Google::new(appid, app_secret, callback_url)`.  The
source validates, in order, the hardcoded auth URL, the hardcoded token
URL and the caller's callback URL, with `.unwrap()` on each: a malformed
URL makes the constructor panic, aborting construction with no instance
produced.  That fatal, non-retryable failure is the spec's
`ConfigurationError`, modelled here as `.error .configurationError`.
Construction takes no `World` and issues no `Request`: it is pure, with
no network activity. -/
def Google.new (appid app_secret callback_url : String) : Except OAuthError Google :=
  if !isValidUrlString googleAuthUrl then .error .configurationError
  else if !isValidUrlString googleTokenUrl then .error .configurationError
  else if !isValidUrlString callback_url then .error .configurationError
  else .ok { clientId := appid, clientSecret := app_secret,
             authUrl := googleAuthUrl, tokenUrl := googleTokenUrl,
             redirectUrl := callback_url }

/-- Embedding of `Google::get_userinfo(code)` against the network oracle
`w`, returning the trace of requests issued and the result.  Mirroring the
source: first the token exchange (failure returns the wrapped cause and
stops, so no profile request is made); then the GET to the user-info
endpoint with the bearer token; a non-2xx status fails with the fixed
message (the spec's `ProfileFetchError`) without looking at the body;
otherwise the body is deserialized into `UserInfo`, any serde failure
becoming the spec's `ProfileParseError`. -/
def Google.get_userinfo (g : Google) (code : String) (w : World) :
    List Request × Except OAuthError UserInfo :=
  let tokenReq : Request :=
    .tokenExchange g.tokenUrl code g.clientId g.clientSecret g.redirectUrl
  match w.tokenEndpoint with
  | .err cause => ([tokenReq], .error (.tokenExchangeError cause))
  | .ok token =>
      let resp := w.profileEndpoint
      let trace := [tokenReq, .profileFetch googleUserinfoUrl token]
      if isSuccessStatus resp.status then
        match UserInfo.fromJson? resp.body with
        | some u => (trace, .ok u)
        | none => (trace, .error .profileParseError)
      else
        (trace, .error .profileFetchError)

/-- Characters the `form_urlencoded` serializer passes through unchanged:
ASCII alphanumerics and `*`, `-`, `.`, `_`. -/
def isFormSafe (c : Char) : Bool :=
  c.isAlphanum || c = '*' || c = '-' || c = '.' || c = '_'

/-- Hexadecimal digit (uppercase) for a value below 16. -/
def hexDigit (n : Nat) : Char :=
  if n < 10 then Char.ofNat (48 + n) else Char.ofNat (55 + n)

/-- Percent-encoding of one byte. -/
def percentByte (b : Nat) : List Char :=
  ['%', hexDigit (b / 16), hexDigit (b % 16)]

/-- UTF-8 encoding of one character, as the byte values it serializes to. -/
def utf8Bytes (c : Char) : List Nat :=
  let n := c.toNat
  if n < 128 then [n]
  else if n < 2048 then [192 + n / 64, 128 + n % 64]
  else if n < 65536 then [224 + n / 4096, 128 + n / 64 % 64, 128 + n % 64]
  else [240 + n / 262144, 128 + n / 4096 % 64, 128 + n / 64 % 64, 128 + n % 64]

/-- `form_urlencoded` serialization of one character: a space becomes `+`,
a safe character passes through, anything else is percent-encoded byte by
byte from its UTF-8 encoding. -/
def formEncodeChar (c : Char) : List Char :=
  if c = ' ' then ['+']
  else if isFormSafe c then [c]
  else ((utf8Bytes c).map percentByte).flatten

/-- `form_urlencoded` serialization of a string (on its character list). -/
def formEncodeList (cs : List Char) : List Char :=
  (cs.map formEncodeChar).flatten

/-- The scopes added by `get_redirect_url`, in order of the `add_scope`
calls. -/
def oauthScopes : List String := ["openid", "email", "profile"]

/-- The query pairs the oauth2 crate's `AuthorizationRequest::url` builds
for this client, in the crate's order: response type, client id, the
anti-forgery state token, the redirect URL, and the space-joined scope
list.  The client secret does not appear among them. -/
def authorizeQueryPairs (g : Google) (state : String) : List (String × String) :=
  [("response_type", "code"),
   ("client_id", g.clientId),
   ("state", state),
   ("redirect_uri", g.redirectUrl),
   ("scope", String.intercalate " " oauthScopes)]

/-- Serialization of a query pair list: each pair form-encoded around `=`,
pairs joined with `&`. -/
def encodeQuery (ps : List (String × String)) : List Char :=
  List.intercalate ['&']
    (ps.map fun p => formEncodeList p.1.data ++ '=' :: formEncodeList p.2.data)

/-- The characters of the authorization URL: the serialized auth endpoint,
`?`, then the serialized query. -/
def urlChars (g : Google) (state : String) : List Char :=
  g.authUrl.data ++ '?' :: encodeQuery (authorizeQueryPairs g state)

/-- Embedding of `Google::get_redirect_url`.  The freshly generated CSRF
token is the explicit `csrf` argument (the randomness oracle); the source
binds the generated token to `_csrf_token` and drops it, so the call
returns only the URL string and the client is left untouched. -/
def Google.get_redirect_url (g : Google) (csrf : String) : String :=
  String.mk (urlChars g csrf)

/-- One call to `get_redirect_url` observed together with the client state
it leaves behind: the source takes `&self` and stores nothing, so the
state after the call is the unchanged receiver. -/
def Google.redirect_url_step (g : Google) (csrf : String) : String × Google :=
  (g.get_redirect_url csrf, g)

/-- Base64 character (URL-safe alphabet `A-Z a-z 0-9 - _`). -/
def b64Char (n : Nat) : Char :=
  if n < 26 then Char.ofNat (65 + n)
  else if n < 52 then Char.ofNat (97 + (n - 26))
  else if n < 62 then Char.ofNat (48 + (n - 52))
  else if n = 62 then '-'
  else '_'

/-- URL-safe base64 without padding, on byte values (`base64::URL_SAFE_NO_PAD`). -/
def base64UrlNoPad : List Nat → List Char
  | [] => []
  | [a] => [b64Char (a / 4), b64Char (a % 4 * 16)]
  | [a, b] => [b64Char (a / 4), b64Char (a % 4 * 16 + b / 16), b64Char (b % 16 * 4)]
  | a :: b :: c :: rest =>
      b64Char (a / 4) :: b64Char (a % 4 * 16 + b / 16) ::
      b64Char (b % 16 * 4 + c / 64) :: b64Char (c % 64) :: base64UrlNoPad rest

namespace CsrfToken

/-- Embedding of `CsrfToken::new_random`: the drawn random bytes (16 of
them in the oauth2 crate, here any number) are URL-safe base64 encoded
into the token string.  The randomness is the explicit `bytes` oracle. -/
def new_random (bytes : List (Fin 256)) : String :=
  String.mk (base64UrlNoPad (bytes.map Fin.val))

end CsrfToken

/-- The mocked profile body of the spec's success scenario. -/
def adaJson : Json :=
  .obj [("sub", .str "123"), ("name", .str "Ada"), ("picture", .str "http://x/p.png"),
        ("email", .str "a@b.com"), ("email_verified", .bool true)]

/-- A concrete validly-configured client, for instantiating theorems. -/
def sampleClient : Google :=
  { clientId := "id0", clientSecret := "secret0",
    authUrl := googleAuthUrl, tokenUrl := googleTokenUrl,
    redirectUrl := "https://example.com/cb" }

/-- A world whose token endpoint fails. -/
def tokenErrWorld : World := ⟨.err "invalid_grant", ⟨200, Json.null⟩⟩

/-- C1: with a token endpoint returning a valid access token and the
profile endpoint answering 200 with the spec's JSON object, `get_userinfo`
returns a `UserInfo` with `sub` mapped to `open_id = "123"`, `name` to
`username = "Ada"`, `picture` to `profile_url = "http://x/p.png"`,
`email = "a@b.com"`, `email_verified = true`, and the optional
`given_name`, `family_name`, `locale` absent. -/
theorem c1_success_maps_fields (g : Google) (code tok : String) :
    g.get_userinfo code ⟨.ok tok, ⟨200, adaJson⟩⟩ =
      ([.tokenExchange g.tokenUrl code g.clientId g.clientSecret g.redirectUrl,
        .profileFetch googleUserinfoUrl tok],
       .ok { open_id := "123", username := "Ada", given_name := none,
             family_name := none, profile_url := "http://x/p.png",
             email := "a@b.com", email_verified := true, locale := none }) := rfl

/-- C3: construction with a malformed redirect URL fails with
`ConfigurationError` and produces no client instance (the source's
`.unwrap()` panic; construction is pure, so no network activity occurs). -/
theorem c3_invalid_callback_fails (appid secret cb : String)
    (h : isValidUrlString cb = false) :
    Google.new appid secret cb = .error .configurationError ∧
    ∀ g, Google.new appid secret cb ≠ .ok g := by
  have hnew : Google.new appid secret cb = .error .configurationError := by
    unfold Google.new
    rw [show isValidUrlString googleAuthUrl = true from by decide,
        show isValidUrlString googleTokenUrl = true from by decide, h]
    rfl
  refine ⟨hnew, fun g hg => ?_⟩
  rw [hnew] at hg
  cases hg

/-- C3 witness: `"not a url"` is rejected. -/
theorem c3_invalid_callback_fails_witness :
    Google.new "appid" "secret" "not a url" = .error .configurationError ∧
    ∀ g, Google.new "appid" "secret" "not a url" ≠ .ok g :=
  c3_invalid_callback_fails "appid" "secret" "not a url" (by decide)

/-- C4: when the token endpoint fails (HTTP error or transport failure),
`get_userinfo` fails with `TokenExchangeError` wrapping the underlying
cause, and the request trace contains no profile-endpoint request. -/
theorem c4_token_error_stops (g : Google) (code cause : String) (w : World)
    (h : w.tokenEndpoint = .err cause) :
    (g.get_userinfo code w).2 = .error (.tokenExchangeError cause) ∧
    ∀ u b, Request.profileFetch u b ∉ (g.get_userinfo code w).1 := by
  obtain ⟨te, pe⟩ := w
  cases h
  refine ⟨rfl, fun u b hmem => ?_⟩
  simp [Google.get_userinfo] at hmem

/-- C4 witness: a failing token endpoint at a concrete world. -/
theorem c4_token_error_stops_witness :
    (sampleClient.get_userinfo "code0" tokenErrWorld).2 =
      .error (.tokenExchangeError "invalid_grant") ∧
    ∀ u b, Request.profileFetch u b ∉ (sampleClient.get_userinfo "code0" tokenErrWorld).1 :=
  c4_token_error_stops sampleClient "code0" "invalid_grant" tokenErrWorld rfl

/-- C5: when the token exchange succeeds but the profile endpoint answers
a non-2xx status, `get_userinfo` fails with `ProfileFetchError`, whatever
the body is — the body is never parsed, as the result is the same for
every body. -/
theorem c5_profile_status_not_ok (g : Google) (code tok : String)
    (status : Nat) (body : Json) (h : isSuccessStatus status = false) :
    g.get_userinfo code ⟨.ok tok, ⟨status, body⟩⟩ =
      ([.tokenExchange g.tokenUrl code g.clientId g.clientSecret g.redirectUrl,
        .profileFetch googleUserinfoUrl tok], .error .profileFetchError) := by
  simp [Google.get_userinfo, h]

/-- C5 witness: a 500 answer fails with `ProfileFetchError` even though
its body is the well-formed profile object. -/
theorem c5_profile_status_not_ok_witness :
    sampleClient.get_userinfo "code0" ⟨.ok "tok0", ⟨500, adaJson⟩⟩ =
      ([.tokenExchange sampleClient.tokenUrl "code0" sampleClient.clientId
          sampleClient.clientSecret sampleClient.redirectUrl,
        .profileFetch googleUserinfoUrl "tok0"], .error .profileFetchError) :=
  c5_profile_status_not_ok sampleClient "code0" "tok0" 500 adaJson (by decide)

/-- The wire names serde's `UserInfo` visitor recognizes. -/
def isKnownKey (k : String) : Bool :=
  k = "sub" || k = "name" || k = "given_name" || k = "family_name" ||
  k = "picture" || k = "email" || k = "email_verified" || k = "locale"

theorem stepField_sub_of_ne (b b2 : UserInfoBuilder) (k : String) (v : Json)
    (hk : ¬k = "sub") (h : stepField b (k, v) = some b2) : b2.sub = b.sub := by
  unfold stepField at h
  rw [if_neg hk] at h
  repeat' split at h
  all_goals first
    | cases h
    | (obtain ⟨s, _, rfl⟩ := Option.map_eq_some'.mp h; rfl)
  all_goals rfl

theorem stepField_unknown (b : UserInfoBuilder) (k : String) (v : Json)
    (hk : isKnownKey k = false) : stepField b (k, v) = some b := by
  unfold isKnownKey at hk
  simp only [Bool.or_eq_false_iff, decide_eq_false_iff_not] at hk
  obtain ⟨⟨⟨⟨⟨⟨⟨h1, h2⟩, h3⟩, h4⟩, h5⟩, h6⟩, h7⟩, h8⟩ := hk
  unfold stepField
  simp [h1, h2, h3, h4, h5, h6, h7, h8]

theorem foldlM_sub_none (fields : List (String × Json)) :
    ∀ b : UserInfoBuilder,
      (∀ v, ("sub", v) ∈ fields → getStr v = none) → b.sub = none →
      fields.foldlM stepField b = none ∨
      ∃ b2, fields.foldlM stepField b = some b2 ∧ b2.sub = none := by
  induction fields with
  | nil => exact fun b _ hb => .inr ⟨b, rfl, hb⟩
  | cons kv rest ih =>
    intro b hsub hb
    obtain ⟨k, v⟩ := kv
    rw [List.foldlM_cons]
    cases hstep : stepField b (k, v) with
    | none => exact .inl rfl
    | some b2 =>
      have hb2 : b2.sub = none := by
        by_cases hk : k = "sub"
        · subst hk
          have hv := hsub v (List.mem_cons_self _ _)
          unfold stepField at hstep
          simp [hb, hv] at hstep
        · rw [stepField_sub_of_ne b b2 k v hk hstep, hb]
      have hrest := ih b2 (fun v2 hv2 => hsub v2 (List.mem_cons_of_mem _ hv2)) hb2
      simpa using hrest

/-- A body whose `sub` field is missing or never a string cannot
deserialize into `UserInfo`. -/
theorem fromJson_none_of_sub_bad (fields : List (String × Json))
    (hsub : ∀ v, ("sub", v) ∈ fields → getStr v = none) :
    UserInfo.fromJson? (.obj fields) = none := by
  unfold UserInfo.fromJson?
  rcases foldlM_sub_none fields {} hsub rfl with h | ⟨b2, h, hb2⟩
  · simp [h]
  · simp [h, hb2]

/-- C6: when the profile endpoint answers a success status but a JSON
object whose required `sub` field is missing, or present only with a
non-string value, `get_userinfo` fails with `ProfileParseError`. -/
theorem c6_bad_profile_body (g : Google) (code tok : String) (status : Nat)
    (fields : List (String × Json)) (hstatus : isSuccessStatus status = true)
    (hsub : ∀ v, ("sub", v) ∈ fields → getStr v = none) :
    g.get_userinfo code ⟨.ok tok, ⟨status, .obj fields⟩⟩ =
      ([.tokenExchange g.tokenUrl code g.clientId g.clientSecret g.redirectUrl,
        .profileFetch googleUserinfoUrl tok], .error .profileParseError) := by
  simp [Google.get_userinfo, hstatus, fromJson_none_of_sub_bad fields hsub]

/-- C6 witness: a body with every field but `sub` fails to parse. -/
theorem c6_bad_profile_body_witness :
    sampleClient.get_userinfo "code0" ⟨.ok "tok0", ⟨200,
        .obj [("name", .str "Ada"), ("picture", .str "http://x/p.png"),
              ("email", .str "a@b.com"), ("email_verified", .bool true)]⟩⟩ =
      ([.tokenExchange sampleClient.tokenUrl "code0" sampleClient.clientId
          sampleClient.clientSecret sampleClient.redirectUrl,
        .profileFetch googleUserinfoUrl "tok0"], .error .profileParseError) :=
  c6_bad_profile_body sampleClient "code0" "tok0" 200 _ (by decide)
    (by intro v hv; simp at hv)

/-- serde's visitor ignores unknown fields: the fold over all fields of
the object equals the fold over its known-named fields alone. -/
theorem foldlM_filter_known (fields : List (String × Json)) :
    ∀ b : UserInfoBuilder,
      fields.foldlM stepField b =
      (fields.filter fun kv => isKnownKey kv.1).foldlM stepField b := by
  induction fields with
  | nil => exact fun _ => rfl
  | cons kv rest ih =>
    intro b
    obtain ⟨k, v⟩ := kv
    rw [List.foldlM_cons, List.filter_cons]
    cases hk : isKnownKey k with
    | false =>
      rw [stepField_unknown b k v hk]
      simpa using ih b
    | true =>
      rw [if_pos rfl, List.foldlM_cons]
      cases hstep : stepField b (k, v) <;> simp [hstep, ih]

/-- C10: a success response whose JSON object carries the required fields
(`sub`, `name`, `picture`, `email` as strings, `email_verified` as a
boolean) interleaved with arbitrary unknown fields deserializes fine:
`get_userinfo` succeeds and the unknown fields are ignored. -/
theorem c10_unknown_fields_ignored (g : Google) (code tok : String) (status : Nat)
    (fields : List (String × Json)) (s n p e : String) (ev : Bool)
    (hstatus : isSuccessStatus status = true)
    (hknown : fields.filter (fun kv => isKnownKey kv.1) =
      [("sub", .str s), ("name", .str n), ("picture", .str p),
       ("email", .str e), ("email_verified", .bool ev)]) :
    g.get_userinfo code ⟨.ok tok, ⟨status, .obj fields⟩⟩ =
      ([.tokenExchange g.tokenUrl code g.clientId g.clientSecret g.redirectUrl,
        .profileFetch googleUserinfoUrl tok],
       .ok { open_id := s, username := n, given_name := none, family_name := none,
             profile_url := p, email := e, email_verified := ev, locale := none }) := by
  have hparse : UserInfo.fromJson? (.obj fields) =
      some { open_id := s, username := n, given_name := none, family_name := none,
             profile_url := p, email := e, email_verified := ev, locale := none } := by
    simp only [UserInfo.fromJson?]
    rw [foldlM_filter_known fields, hknown]
    rfl
  simp [Google.get_userinfo, hstatus, hparse]

/-- C10 witness: unknown fields `iss`, `aud`, `hd` interleaved with the
required ones are ignored. -/
theorem c10_unknown_fields_ignored_witness :
    sampleClient.get_userinfo "code0" ⟨.ok "tok0", ⟨200,
        .obj [("iss", .str "https://accounts.google.com"), ("sub", .str "123"),
              ("aud", .num 7), ("name", .str "Ada"), ("picture", .str "http://x/p.png"),
              ("email", .str "a@b.com"), ("hd", .bool false),
              ("email_verified", .bool true)]⟩⟩ =
      ([.tokenExchange sampleClient.tokenUrl "code0" sampleClient.clientId
          sampleClient.clientSecret sampleClient.redirectUrl,
        .profileFetch googleUserinfoUrl "tok0"],
       .ok { open_id := "123", username := "Ada", given_name := none, family_name := none,
             profile_url := "http://x/p.png", email := "a@b.com", email_verified := true,
             locale := none }) :=
  c10_unknown_fields_ignored sampleClient "code0" "tok0" 200 _
    "123" "Ada" "http://x/p.png" "a@b.com" true (by decide) rfl

theorem new_ok_elim (appid secret cb : String) (g : Google)
    (h : Google.new appid secret cb = .ok g) :
    g = ⟨appid, secret, googleAuthUrl, googleTokenUrl, cb⟩ := by
  unfold Google.new at h
  repeat' split at h
  all_goals cases h
  all_goals rfl

/-- C2: for a client built by `new` from any valid configuration, the
authorization URL's query pairs are exactly response type `code`, the
configured client id, the freshly generated state token, the configured
redirect URL and the single space-delimited scope list
`openid email profile`; the URL is the auth endpoint followed by exactly
those serialized pairs; and it is computed independently of the client
secret, which therefore never enters the URL. -/
theorem c2_redirect_url_params (appid secret cb : String) (g : Google) (csrf : String)
    (hnew : Google.new appid secret cb = .ok g) :
    authorizeQueryPairs g csrf =
      [("response_type", "code"), ("client_id", appid), ("state", csrf),
       ("redirect_uri", cb), ("scope", "openid email profile")] ∧
    g.get_redirect_url csrf =
      String.mk (g.authUrl.data ++ '?' :: encodeQuery (authorizeQueryPairs g csrf)) ∧
    ∀ secret2 g2, Google.new appid secret2 cb = .ok g2 →
      g2.get_redirect_url csrf = g.get_redirect_url csrf := by
  have hg := new_ok_elim appid secret cb g hnew
  subst hg
  refine ⟨rfl, rfl, fun secret2 g2 h2 => ?_⟩
  have hg2 := new_ok_elim appid secret2 cb g2 h2
  subst hg2
  rfl

/-- C2 witness: a concrete valid configuration. -/
theorem c2_redirect_url_params_witness :
    authorizeQueryPairs sampleClient "tok" =
      [("response_type", "code"), ("client_id", "id0"), ("state", "tok"),
       ("redirect_uri", "https://example.com/cb"), ("scope", "openid email profile")] ∧
    sampleClient.get_redirect_url "tok" =
      String.mk (sampleClient.authUrl.data ++
        '?' :: encodeQuery (authorizeQueryPairs sampleClient "tok")) ∧
    ∀ secret2 g2, Google.new "id0" secret2 "https://example.com/cb" = .ok g2 →
      g2.get_redirect_url "tok" = sampleClient.get_redirect_url "tok" :=
  c2_redirect_url_params "id0" "secret0" "https://example.com/cb" sampleClient "tok" rfl

/-- C7: `get_redirect_url` cannot fail (it is a total function into URL
strings), performs no I/O (its embedding takes no `World` and issues no
`Request`), and leaves the client unchanged: the state after a call is
the receiver itself, so the generated anti-forgery token is discarded —
a later call on the resulting state behaves exactly as on the original
client, independently of the earlier call's token. -/
theorem c7_redirect_url_stateless (g : Google) (t1 t2 : String) :
    (g.redirect_url_step t1).2 = g ∧
    ((g.redirect_url_step t1).2.redirect_url_step t2).1 = g.get_redirect_url t2 ∧
    (g.redirect_url_step t1).1 = String.mk (urlChars g t1) :=
  ⟨rfl, rfl, rfl⟩

theorem formEncodeChar_safe (c : Char) (h : isFormSafe c = true) :
    formEncodeChar c = [c] := by
  have hsp : ¬(c = ' ') := by
    intro he
    subst he
    exact absurd h (by decide)
  unfold formEncodeChar
  rw [if_neg hsp, if_pos h]

theorem formEncodeList_safe (cs : List Char) (h : cs.all isFormSafe = true) :
    formEncodeList cs = cs := by
  induction cs with
  | nil => rfl
  | cons c rest ih =>
      simp only [List.all_cons, Bool.and_eq_true] at h
      simp only [formEncodeList, List.map_cons, List.flatten_cons] at ih ⊢
      rw [formEncodeChar_safe c h.1, ih h.2]
      rfl

/-- The serialized query up to and including `state=`. -/
def queryPre (g : Google) : List Char :=
  formEncodeList "response_type".data ++ '=' :: formEncodeList "code".data ++
  '&' :: formEncodeList "client_id".data ++ '=' :: formEncodeList g.clientId.data ++
  '&' :: formEncodeList "state".data ++ ['=']

/-- The serialized query after the state token. -/
def queryPost (g : Google) : List Char :=
  '&' :: formEncodeList "redirect_uri".data ++ '=' :: formEncodeList g.redirectUrl.data ++
  '&' :: formEncodeList "scope".data ++
  '=' :: formEncodeList (String.intercalate " " oauthScopes).data

theorem encodeQuery_factor (g : Google) (state : String) :
    encodeQuery (authorizeQueryPairs g state) =
      queryPre g ++ (formEncodeList state.data ++ queryPost g) := by
  simp [encodeQuery, authorizeQueryPairs, queryPre, queryPost, List.intercalate]

theorem b64Char_formSafe_fin : ∀ n : Fin 64, isFormSafe (b64Char n.val) = true := by decide

theorem b64Char_formSafe (n : Nat) (h : n < 64) : isFormSafe (b64Char n) = true :=
  b64Char_formSafe_fin ⟨n, h⟩

theorem base64_all_formSafe (ns : List Nat) (h : ∀ n ∈ ns, n < 256) :
    (base64UrlNoPad ns).all isFormSafe = true := by
  match ns with
  | [] => rfl
  | [a] =>
      have ha := h a (by simp)
      simp only [base64UrlNoPad, List.all_cons, List.all_nil, Bool.and_eq_true]
      exact ⟨b64Char_formSafe _ (by omega), b64Char_formSafe _ (by omega), trivial⟩
  | [a, b] =>
      have ha := h a (by simp)
      have hb := h b (by simp)
      simp only [base64UrlNoPad, List.all_cons, List.all_nil, Bool.and_eq_true]
      exact ⟨b64Char_formSafe _ (by omega), b64Char_formSafe _ (by omega),
             b64Char_formSafe _ (by omega), trivial⟩
  | a :: b :: c :: rest =>
      have ha := h a (by simp)
      have hb := h b (by simp)
      have hc := h c (by simp)
      have hrest := base64_all_formSafe rest (fun n hn => h n (by simp [hn]))
      simp only [base64UrlNoPad, List.all_cons, Bool.and_eq_true]
      exact ⟨b64Char_formSafe _ (by omega), b64Char_formSafe _ (by omega),
             b64Char_formSafe _ (by omega), b64Char_formSafe _ (by omega), hrest⟩

/-- Every token `CsrfToken.new_random` can produce consists of characters
the form encoder passes through unchanged (the URL-safe base64 alphabet). -/
theorem new_random_formSafe (bs : List (Fin 256)) :
    ((CsrfToken.new_random bs).data.all isFormSafe) = true := by
  show (base64UrlNoPad (bs.map Fin.val)).all isFormSafe = true
  apply base64_all_formSafe
  intro n hn
  obtain ⟨i, _, rfl⟩ := List.mem_map.mp hn
  exact i.isLt

/-- C8: two calls to `get_redirect_url` on the same client whose freshly
generated random tokens differ (distinct draws of `CsrfToken::new_random`,
which randomness makes overwhelmingly probable) return different URLs:
the state parameter embeds the token faithfully, so differing tokens make
the two outputs differ. -/
theorem c8_fresh_tokens_differ (g : Google) (bytes1 bytes2 : List (Fin 256))
    (hne : CsrfToken.new_random bytes1 ≠ CsrfToken.new_random bytes2) :
    g.get_redirect_url (CsrfToken.new_random bytes1) ≠
      g.get_redirect_url (CsrfToken.new_random bytes2) := by
  intro h
  apply hne
  unfold Google.get_redirect_url urlChars at h
  injection h with h
  rw [encodeQuery_factor, encodeQuery_factor] at h
  have h2 := List.append_cancel_left h
  injection h2 with _ h3
  have h4 := List.append_cancel_left h3
  have h5 := List.append_cancel_right h4
  rw [formEncodeList_safe _ (new_random_formSafe bytes1),
      formEncodeList_safe _ (new_random_formSafe bytes2)] at h5
  cases hb1 : CsrfToken.new_random bytes1
  cases hb2 : CsrfToken.new_random bytes2
  rw [hb1, hb2] at h5
  simp only [hb1, hb2] at h5 ⊢
  exact congrArg String.mk h5

/-- C8 witness: two distinct 16-byte draws give different URLs. -/
theorem c8_fresh_tokens_differ_witness :
    sampleClient.get_redirect_url
        (CsrfToken.new_random [0, 0, 0, 0, 0, 0, 0, 0, 0, 0, 0, 0, 0, 0, 0, 0]) ≠
      sampleClient.get_redirect_url
        (CsrfToken.new_random [0, 0, 0, 0, 0, 0, 0, 0, 0, 0, 0, 0, 0, 0, 0, 1]) :=
  c8_fresh_tokens_differ sampleClient
    [0, 0, 0, 0, 0, 0, 0, 0, 0, 0, 0, 0, 0, 0, 0, 0]
    [0, 0, 0, 0, 0, 0, 0, 0, 0, 0, 0, 0, 0, 0, 0, 1] (by decide)

/-- C9: the two hardcoded endpoint URLs always parse as valid URLs, so
their validation cannot fail, and whether `Google::new` completes is
determined solely by whether the caller's callback URL is valid. -/
theorem c9_hardcoded_urls_always_valid :
    isValidUrlString googleAuthUrl = true ∧
    isValidUrlString googleTokenUrl = true ∧
    ∀ appid secret cb,
      (∃ g, Google.new appid secret cb = .ok g) ↔ isValidUrlString cb = true := by
  refine ⟨by decide, by decide, fun appid secret cb => ?_⟩
  unfold Google.new
  rw [show isValidUrlString googleAuthUrl = true from by decide,
      show isValidUrlString googleTokenUrl = true from by decide]
  cases h : isValidUrlString cb <;> simp [h]
